import Mathlib

deriving instance DecidableEq for Except

-- Verification development for the sophiawillwin user-account service.
--
-- The repository has two Flask source files:
--   * app.py      : the bcrypt/sqlite user service (register, simple_authenticate,
--                   get_user_profile, update_user_profile, health_check);
--   * 密码.py     : an earlier demo variant of simple_authenticate backed by a
--                   hardcoded plaintext credential dictionary SIMPLE_USERS.
--
-- Shallow embedding conventions:
--   * JSON request bodies are modelled as optional association lists of
--     (key, Scalar); `none` stands for a missing/unparsable JSON body and the
--     empty list for the JSON object with no keys (both are falsy in Python).
--     Only scalar JSON values are modelled, matching the spec of the Field
--     Validator ("string keys to arbitrary scalar values").
--   * Python floats are modelled as rationals; the float special values
--     inf/nan and the textual repr of floats are approximated.
--   * The sqlite users table is a list of UserRow values; parameterized
--     queries become pure list operations.  Usernames and passwords in the
--     modelled requests are JSON strings (the routes that take the username
--     from the URL path always receive strings); a register request whose
--     username or password is a non-string scalar is modelled as the generic
--     500 handler of app.py (in the real code a non-string password raises
--     AttributeError on .encode, which that handler catches).
--   * The bcrypt library is not part of the repository; hash and verify are
--     modelled from the spec (see bcrypt_hashpw below).

-- ---------------------------------------------------------------------------
-- JSON scalars and request bodies
-- ---------------------------------------------------------------------------

inductive Scalar
  | null
  | str (s : String)
  | int (n : Int)
  | float (q : Rat)
  | bool (b : Bool)
deriving DecidableEq

-- A JSON object body: association list from keys to scalar values.
abbrev Obj := List (String × Scalar)

-- Python dict lookup `body.get(k)` / `k in body`.
def lookupField (body : Obj) (k : String) : Option Scalar :=
  (List.find? (fun kv => kv.1 == k) body).map (fun kv => kv.2)

def hasKey (body : Obj) (k : String) : Bool :=
  (lookupField body k).isSome

-- `body[k]`, used only on paths where `hasKey` already held.
def jget (body : Obj) (k : String) : Scalar :=
  (lookupField body k).getD .null

-- `body.get(k)` followed by `if v is not None:` — JSON null and a missing key
-- are indistinguishable to the Python code (both give the Python value None).
def getNonNull (body : Obj) (k : String) : Option Scalar :=
  match lookupField body k with
  | some Scalar.null => none
  | some v => some v
  | none => none

-- ---------------------------------------------------------------------------
-- Python scalar coercions: float(v), int(v), str(v)
-- ---------------------------------------------------------------------------

def digitsToNat (l : List Char) : Nat :=
  l.foldl (fun a c => a * 10 + (c.toNat - 48)) 0

def stripSign : List Char → (Bool × List Char)
  | '-' :: r => (true, r)
  | '+' :: r => (false, r)
  | l => (false, l)

def trimWs (l : List Char) : List Char :=
  ((l.dropWhile Char.isWhitespace).reverse.dropWhile Char.isWhitespace).reverse

-- Unsigned mantissa of a Python float literal: digits, optionally with a
-- decimal point; at least one digit overall.  Returns the value and the
-- unconsumed remainder.
def parseUnsignedFloat (l : List Char) : Option (Rat × List Char) :=
  let ip := l.takeWhile Char.isDigit
  let r1 := l.dropWhile Char.isDigit
  match r1 with
  | '.' :: r2 =>
    let fp := r2.takeWhile Char.isDigit
    let r3 := r2.dropWhile Char.isDigit
    if ip.isEmpty && fp.isEmpty then none
    else some ((digitsToNat ip : Rat) + (digitsToNat fp : Rat) / ((10 : Rat) ^ fp.length), r3)
  | _ => if ip.isEmpty then none else some ((digitsToNat ip : Rat), r1)

-- Optional exponent part; the whole remainder must be consumed.
def parseExpPart : List Char → Option Int
  | [] => some 0
  | c :: r =>
    if c = 'e' ∨ c = 'E' then
      let sr := stripSign r
      let ds := sr.2.takeWhile Char.isDigit
      let r3 := sr.2.dropWhile Char.isDigit
      if ds.isEmpty ∨ ¬ r3.isEmpty then none
      else some (if sr.1 then -(digitsToNat ds : Int) else (digitsToNat ds : Int))
    else none

-- Python float(string): optional whitespace, sign, digits with optional
-- decimal point and exponent.  (inf/nan and underscores are not modelled;
-- floats are rationals here.)
def pyParseFloat (s : String) : Option Rat :=
  let l := trimWs s.data
  let sl := stripSign l
  match parseUnsignedFloat sl.2 with
  | none => none
  | some (m, rest) =>
    match parseExpPart rest with
    | none => none
    | some e =>
      let v := m * (10 : Rat) ^ e
      some (if sl.1 then -v else v)

-- Python int(string): optional whitespace, sign, digits only
-- (so int("3.5") is a ValueError).
def pyParseInt (s : String) : Option Int :=
  let l := trimWs s.data
  let sl := stripSign l
  let ds := sl.2.takeWhile Char.isDigit
  let rest := sl.2.dropWhile Char.isDigit
  if ds.isEmpty ∨ ¬ rest.isEmpty then none
  else some (if sl.1 then -(digitsToNat ds : Int) else (digitsToNat ds : Int))

-- float(v) on a scalar; the error value is the ValueError message.
-- float(None) raises TypeError, not ValueError, but every call site in the
-- sources guards the value with `is not None` first, so that case is
-- unreachable; it is kept as an error for totality.
def pyFloat : Scalar → Except String Rat
  | .int n => .ok (n : Rat)
  | .float q => .ok q
  | .bool b => .ok (if b then 1 else 0)
  | .str s =>
    match pyParseFloat s with
    | some q => .ok q
    | none => .error ("could not convert string to float: " ++ s)
  | .null => .error "float() argument is None"

-- int(v) on a scalar; int(float) truncates toward zero.
def pyInt : Scalar → Except String Int
  | .int n => .ok n
  | .float q => .ok (Int.tdiv q.num (q.den : Int))
  | .bool b => .ok (if b then 1 else 0)
  | .str s =>
    match pyParseInt s with
    | some n => .ok n
    | none => .error ("invalid literal for int() with base 10: " ++ s)
  | .null => .error "int() argument is None"

-- str(v) on a scalar; never fails.  (The textual form of floats is
-- approximated by the rational repr; no claim depends on it.)
def pyStr : Scalar → String
  | .str s => s
  | .int n => toString n
  | .float q => toString q
  | .bool b => if b then "True" else "False"
  | .null => "None"

-- ---------------------------------------------------------------------------
-- Password Hasher.  Modelled from the spec: the bcrypt library used at
-- app.py lines 96 and 148 is an external dependency, not part of src/.
-- Spec 4.2: hash(plaintext) combines a per-call salt with the plaintext via a
-- one-way function and encodes parameters + salt + digest in its output;
-- verify recomputes from the embedded salt and never raises on malformed
-- input.  The digest is abstracted by a cheap concrete function (one-wayness
-- itself is not a statable property of a shallow embedding); salt freshness
-- is modelled by passing distinct salt values for distinct calls, mirroring
-- bcrypt.gensalt().
-- ---------------------------------------------------------------------------

def strEncode (p : String) : Nat :=
  (p.data.foldl (fun a c => a + c.toNat) 0) % 97

-- bcrypt.hashpw(p, salt): an opaque string "$<salt>$<digest>" with the salt
-- in unary over 's' and the digest in unary over 'd'.
def bcrypt_hashpw (p : String) (salt : Nat) : String :=
  String.mk ('$' :: (List.replicate salt 's' ++ '$' :: List.replicate (strEncode p) 'd'))

-- bcrypt.checkpw(p, h): parse the embedded salt and recompute; false on
-- malformed input.
def bcrypt_checkpw (p h : String) : Bool :=
  match h.data with
  | '$' :: rest =>
    match rest.dropWhile (fun c => c == 's') with
    | '$' :: ds => ds == List.replicate (strEncode p) 'd'
    | _ => false
  | _ => false

-- ---------------------------------------------------------------------------
-- The users table (app.py CREATE_TABLE_SQL, lines 18-28)
-- ---------------------------------------------------------------------------

structure UserRow where
  id : Nat
  username : String
  hashed_password : String
  height : Option Rat
  weight : Option Rat
  age : Option Int
  gender : Option String
deriving DecidableEq

abbrev DB := List UserRow

-- SELECT ... WHERE username = ?
def findUser (db : DB) (u : String) : Option UserRow :=
  List.find? (fun r => r.username == u) db

-- AUTOINCREMENT primary key for an INSERT.
def nextId (db : DB) : Nat :=
  (List.foldl (fun m r => max m r.id) 0 db) + 1

-- ---------------------------------------------------------------------------
-- HTTP responses: (json body, status code).  Nested values are at most one
-- object deep (the user_profile object).
-- ---------------------------------------------------------------------------

inductive JVal
  | s (v : Scalar)
  | obj (fs : List (String × Scalar))
deriving DecidableEq

structure Resp where
  body : List (String × JVal)
  code : Nat
deriving DecidableEq

def optRat : Option Rat → Scalar
  | none => .null
  | some q => .float q

def optInt : Option Int → Scalar
  | none => .null
  | some n => .int n

def optStr : Option String → Scalar
  | none => .null
  | some s => .str s

-- The user_profile object built at app.py lines 98-104 (and reused, with the
-- same five columns, by get_user_profile at lines 194-196).
def profileObj (r : UserRow) : List (String × Scalar) :=
  [("username", .str r.username), ("height", optRat r.height),
   ("weight", optRat r.weight), ("age", optInt r.age),
   ("gender", optStr r.gender)]

-- ---------------------------------------------------------------------------
-- 密码.py: hardcoded-credential variant of simple_authenticate
-- ---------------------------------------------------------------------------

-- 密码.py lines 7-10: plaintext username/password pairs.
def SIMPLE_USERS : List (String × String) :=
  [("testuser", "testpass123"), ("admin", "admin123")]

def lookupSimple (u : String) : Option String :=
  (List.find? (fun kv => kv.1 == u) SIMPLE_USERS).map (fun kv => kv.2)

def respAuthMissing : Resp :=
  ⟨[("status", .s (.str "failed")), ("message", .s (.str "Missing username or password"))], 400⟩

def respAuthInvalid : Resp :=
  ⟨[("status", .s (.str "failed")), ("message", .s (.str "Invalid username or password"))], 401⟩

def mimaAuthSuccess (u : String) : Resp :=
  ⟨[("status", .s (.str "success")), ("message", .s (.str "Authentication successful")),
    ("user_id", .s (.str u))], 200⟩

-- 密码.py lines 14-39.  `SIMPLE_USERS[username] == password` compares the
-- stored plaintext with the submitted JSON value; a non-string submitted
-- password or username simply fails the comparison / dict membership.
def mima_simple_authenticate (body? : Option Obj) : Resp :=
  match body? with
  | none => respAuthMissing
  | some body =>
    if body.isEmpty then respAuthMissing
    else if ¬ hasKey body "username" ∨ ¬ hasKey body "password" then respAuthMissing
    else
      match jget body "username" with
      | .str u =>
        match lookupSimple u with
        | some stored =>
          if jget body "password" = .str stored then mimaAuthSuccess u
          else respAuthInvalid
        | none => respAuthInvalid
      | _ => respAuthInvalid

-- ---------------------------------------------------------------------------
-- app.py simple_authenticate (lines 75-122)
-- ---------------------------------------------------------------------------

def respAuth500 : Resp :=
  ⟨[("status", .s (.str "error")), ("message", .s (.str "Authentication failed due to server error"))], 500⟩

def authSuccess (u : String) (r : UserRow) : Resp :=
  ⟨[("status", .s (.str "success")), ("message", .s (.str "Authentication successful")),
    ("user_id", .s (.str u)), ("user_profile", .obj (profileObj r))], 200⟩

-- The route body: missing-field check, user lookup, bcrypt verification.
-- A non-string username matches no TEXT row (the lookup is reached first), and
-- a non-string password on a found user raises AttributeError on .encode,
-- handled by the generic 500 handler.
def simple_authenticate (body? : Option Obj) (db : DB) : Resp :=
  match body? with
  | none => respAuthMissing
  | some body =>
    if body.isEmpty then respAuthMissing
    else if ¬ hasKey body "username" ∨ ¬ hasKey body "password" then respAuthMissing
    else
      match jget body "username" with
      | .str u =>
        match findUser db u with
        | some r =>
          match jget body "password" with
          | .str p =>
            if bcrypt_checkpw p r.hashed_password then authSuccess u r
            else respAuthInvalid
          | _ => respAuth500
        | none => respAuthInvalid
      | _ => respAuthInvalid

-- ---------------------------------------------------------------------------
-- app.py register (lines 125-185)
-- ---------------------------------------------------------------------------

def respRegMissing : Resp :=
  ⟨[("status", .s (.str "failed")), ("message", .s (.str "Missing username or password"))], 400⟩

def respDup : Resp :=
  ⟨[("status", .s (.str "failed")), ("message", .s (.str "Username already exists"))], 409⟩

def respRegBadType (ve : String) : Resp :=
  ⟨[("status", .s (.str "failed")), ("message", .s (.str ("Invalid data type provided: " ++ ve)))], 400⟩

def respRegOk : Resp :=
  ⟨[("status", .s (.str "success")), ("message", .s (.str "Registration successful"))], 201⟩

def respReg500 : Resp :=
  ⟨[("status", .s (.str "error")), ("message", .s (.str "Registration failed due to server error"))], 500⟩

-- The validated optional profile fields (app.py lines 151-160); absent and
-- JSON-null inputs both leave the default None.
structure RegFields where
  height : Option Rat := none
  weight : Option Rat := none
  age : Option Int := none
  gender : Option String := none
deriving DecidableEq

def optCoe {α : Type} (f : Scalar → Except String α) : Option Scalar → Except String (Option α)
  | none => .ok none
  | some v => (f v).map some

-- app.py lines 156-163: the try block converts the four optional fields in
-- order; the first ValueError aborts with the 400 response.
def regValidate (body : Obj) : Except String RegFields := do
  let hv ← optCoe pyFloat (getNonNull body "height")
  let wv ← optCoe pyFloat (getNonNull body "weight")
  let av ← optCoe pyInt (getNonNull body "age")
  let gv := (getNonNull body "gender").map pyStr
  pure ⟨hv, wv, av, gv⟩

-- register, with the pre-insert existence check and the INSERT allowed to see
-- different database snapshots (dbCheck at line 143, dbInsert at line 165):
-- under concurrent access another request may commit a row with the same
-- username between the check and the insert, in which case the INSERT raises
-- sqlite3.IntegrityError (handled at lines 174-177, after rollback).
-- Sequential execution is the special case dbCheck = dbInsert.
def registerRace (body? : Option Obj) (dbCheck dbInsert : DB) (salt : Nat) : Resp × DB :=
  match body? with
  | none => (respRegMissing, dbInsert)
  | some body =>
    if body.isEmpty then (respRegMissing, dbInsert)
    else if ¬ hasKey body "username" ∨ ¬ hasKey body "password" then (respRegMissing, dbInsert)
    else
      match jget body "username" with
      | .str u =>
        if (findUser dbCheck u).isSome then (respDup, dbInsert)
        else
          match jget body "password" with
          | .str p =>
            let hp := bcrypt_hashpw p salt
            match regValidate body with
            | .error ve => (respRegBadType ve, dbInsert)
            | .ok f =>
              if (findUser dbInsert u).isSome then (respDup, dbInsert)
              else (respRegOk,
                    dbInsert ++ [⟨nextId dbInsert, u, hp, f.height, f.weight, f.age, f.gender⟩])
          | _ => (respReg500, dbInsert)
      | _ => (respReg500, dbInsert)

def register (body? : Option Obj) (db : DB) (salt : Nat) : Resp × DB :=
  registerRace body? db db salt

-- ---------------------------------------------------------------------------
-- app.py get_user_profile (lines 188-212)
-- ---------------------------------------------------------------------------

def respProfNotFound : Resp :=
  ⟨[("status", .s (.str "failed")), ("message", .s (.str "User not found"))], 404⟩

def profSuccess (r : UserRow) : Resp :=
  ⟨[("status", .s (.str "success")), ("user_profile", .obj (profileObj r))], 200⟩

def get_user_profile (username : String) (db : DB) : Resp :=
  match findUser db username with
  | none => respProfNotFound
  | some r => profSuccess r

-- ---------------------------------------------------------------------------
-- app.py update_user_profile (lines 215-283)
-- ---------------------------------------------------------------------------

def respUpdMissing : Resp :=
  ⟨[("status", .s (.str "failed")), ("message", .s (.str "Missing profile data"))], 400⟩

def respUpdBadType (f : String) : Resp :=
  ⟨[("status", .s (.str "failed")),
    ("message", .s (.str ("Invalid data type for field \x27" ++ f ++ "\x27")))], 400⟩

def respUpdNoFields : Resp :=
  ⟨[("status", .s (.str "success")), ("message", .s (.str "No fields provided or updated"))], 200⟩

def respUpdOk : Resp :=
  ⟨[("status", .s (.str "success")), ("message", .s (.str "Profile updated successfully"))], 200⟩

-- A value bound into the dynamically built UPDATE statement: the contents of
-- fields_to_update (app.py lines 234-254) are floats, ints, strings or None.
inductive SqlVal
  | null
  | real (q : Rat)
  | int (n : Int)
  | text (s : String)
deriving DecidableEq

-- One iteration of the validation loop body (app.py lines 241-251): the
-- if/elif chain over the current field.  `.ok none` mirrors the fall-through
-- case in which Python adds nothing to fields_to_update (unreachable for
-- whitelisted fields, which all match some branch).
def coerceField (field : String) (value : Scalar) : Except String (Option (String × SqlVal)) :=
  if field = "height" ∧ value ≠ .null then (pyFloat value).map (fun q => some (field, .real q))
  else if field = "weight" ∧ value ≠ .null then (pyFloat value).map (fun q => some (field, .real q))
  else if field = "age" ∧ value ≠ .null then (pyInt value).map (fun n => some (field, .int n))
  else if field = "gender" then
    .ok (some (field, if value = .null then .null else .text (pyStr value)))
  else if value = .null then .ok (some (field, .null))
  else .ok none

-- app.py lines 237-254: `for field in valid_fields: if field in profile_data:`
-- with early return of the 400 response (whose message names the field) on
-- ValueError.
def validateLoop (body : Obj) : List String → List (String × SqlVal) →
    Except String (List (String × SqlVal))
  | [], acc => .ok acc
  | f :: rest, acc =>
    if hasKey body f then
      match coerceField f (jget body f) with
      | .error _ => .error f
      | .ok none => validateLoop body rest acc
      | .ok (some kv) => validateLoop body rest (acc ++ [kv])
    else validateLoop body rest acc

def valid_fields : List String := ["height", "weight", "age", "gender"]

def validateFields (body : Obj) : Except String (List (String × SqlVal)) :=
  validateLoop body valid_fields []

-- sqlite column affinity applied when a bound SqlVal lands in the row; each
-- column only ever receives values of its validated type or NULL.
def sqlToRat : SqlVal → Option Rat
  | .null => none
  | .real q => some q
  | .int n => some (n : Rat)
  | .text _ => none

def sqlToInt : SqlVal → Option Int
  | .null => none
  | .int n => some n
  | .real q => some (Int.tdiv q.num (q.den : Int))
  | .text _ => none

def sqlToText : SqlVal → Option String
  | .null => none
  | .text s => some s
  | .real _ => none
  | .int _ => none

-- `SET <key> = ?` for a single pair of the dynamically built statement.
def applyUpd (r : UserRow) (kv : String × SqlVal) : UserRow :=
  match kv.1 with
  | "height" => { r with height := sqlToRat kv.2 }
  | "weight" => { r with weight := sqlToRat kv.2 }
  | "age" => { r with age := sqlToInt kv.2 }
  | "gender" => { r with gender := sqlToText kv.2 }
  | _ => r

def applyFields (r : UserRow) (fs : List (String × SqlVal)) : UserRow :=
  fs.foldl applyUpd r

-- app.py lines 215-283.  Note that `if not profile_data:` (line 222) treats
-- the empty JSON object the same as a missing body, because the empty dict is
-- falsy in Python.
def update_user_profile (username : String) (body? : Option Obj) (db : DB) : Resp × DB :=
  match body? with
  | none => (respUpdMissing, db)
  | some body =>
    if body.isEmpty then (respUpdMissing, db)
    else if (findUser db username).isNone then (respProfNotFound, db)
    else
      match validateFields body with
      | .error f => (respUpdBadType f, db)
      | .ok fs =>
        if fs.isEmpty then (respUpdNoFields, db)
        else (respUpdOk, db.map (fun r => if r.username == username then applyFields r fs else r))

-- ---------------------------------------------------------------------------
-- Auxiliary definitions used by the statements below
-- ---------------------------------------------------------------------------

-- Replace the stored hash of every row of a given username, leaving all other
-- columns untouched; used to state that responses do not depend on the hash.
def setHash (db : DB) (u : String) (hp : String) : DB :=
  db.map (fun r => if r.username == u then { r with hashed_password := hp } else r)

-- A sample registered user for concrete instantiations.
def aliceRow : UserRow := ⟨1, "alice", bcrypt_hashpw "pw" 0, none, none, none, none⟩

-- ---------------------------------------------------------------------------
-- Lemmas about the password hasher model
-- ---------------------------------------------------------------------------

theorem dropWhile_salt (n : Nat) (l : List Char) :
    (List.replicate n 's' ++ '$' :: l).dropWhile (fun c => c == 's') = '$' :: l := by
  induction n with
  | zero => simp [List.dropWhile]
  | succ k ih => simp [List.replicate, List.dropWhile, ih]

theorem bcrypt_checkpw_hashpw (p : String) (salt : Nat) :
    bcrypt_checkpw p (bcrypt_hashpw p salt) = true := by
  show (match (List.replicate salt 's' ++ '$' :: List.replicate (strEncode p) 'd').dropWhile
      (fun c => c == 's') with
    | '$' :: ds => ds == List.replicate (strEncode p) 'd'
    | _ => false) = true
  rw [dropWhile_salt]
  simp

theorem bcrypt_hashpw_inj_salt {p : String} {s1 s2 : Nat}
    (h : bcrypt_hashpw p s1 = bcrypt_hashpw p s2) : s1 = s2 := by
  unfold bcrypt_hashpw at h
  injection h with h
  injection h with _ h
  have hlen := congrArg List.length h
  simpa using hlen

theorem bcrypt_hashpw_head (p : String) (salt : Nat) :
    (bcrypt_hashpw p salt).data.head? = some '$' := rfl

/-- C9: hashing the same plaintext with two distinct (fresh) salts yields two
different stored hash values, and verification of that plaintext succeeds
against both of them. -/
theorem C9_hash_fresh_salt (p : String) (s1 s2 : Nat) (hne : s1 ≠ s2) :
    bcrypt_hashpw p s1 ≠ bcrypt_hashpw p s2 ∧
    bcrypt_checkpw p (bcrypt_hashpw p s1) = true ∧
    bcrypt_checkpw p (bcrypt_hashpw p s2) = true :=
  ⟨fun h => hne (bcrypt_hashpw_inj_salt h),
   bcrypt_checkpw_hashpw p s1, bcrypt_checkpw_hashpw p s2⟩

theorem C9_hash_fresh_salt_witness :
    (0 : Nat) ≠ 1 ∧
    (bcrypt_hashpw "pw123" 0 ≠ bcrypt_hashpw "pw123" 1 ∧
     bcrypt_checkpw "pw123" (bcrypt_hashpw "pw123" 0) = true ∧
     bcrypt_checkpw "pw123" (bcrypt_hashpw "pw123" 1) = true) :=
  ⟨by decide, C9_hash_fresh_salt "pw123" 0 1 (by decide)⟩

/-- C5: an Authenticate request for an existing username with a wrong password
and an Authenticate request for a nonexistent username produce the very same
error response (status 401, body status failed / invalid credentials), so the
two causes are indistinguishable to the caller. -/
theorem C5_auth_indistinguishable (db : DB) (u1 p1 u2 : String) (p2 : Scalar) (r : UserRow)
    (h1 : findUser db u1 = some r)
    (hbad : bcrypt_checkpw p1 r.hashed_password = false)
    (h2 : findUser db u2 = none) :
    simple_authenticate (some [("username", .str u1), ("password", .str p1)]) db
      = respAuthInvalid ∧
    simple_authenticate (some [("username", .str u2), ("password", p2)]) db
      = respAuthInvalid := by
  constructor
  · simp [simple_authenticate, hasKey, lookupField, jget, List.find?, h1, hbad]
  · simp [simple_authenticate, hasKey, lookupField, jget, List.find?, h2]

theorem C5_auth_indistinguishable_witness :
    findUser [aliceRow] "alice" = some aliceRow ∧
    bcrypt_checkpw "wrong" aliceRow.hashed_password = false ∧
    findUser [aliceRow] "nobody" = none ∧
    (simple_authenticate (some [("username", .str "alice"), ("password", .str "wrong")]) [aliceRow]
       = respAuthInvalid ∧
     simple_authenticate (some [("username", .str "nobody"), ("password", .str "x")]) [aliceRow]
       = respAuthInvalid) :=
  ⟨by decide, by decide, by decide,
   C5_auth_indistinguishable [aliceRow] "alice" "wrong" "nobody" (.str "x") aliceRow
     (by decide) (by decide) (by decide)⟩

-- ---------------------------------------------------------------------------
-- Responses do not depend on the stored hash
-- ---------------------------------------------------------------------------

theorem setHash_username (r : UserRow) (u hp : String) :
    (if r.username == u then { r with hashed_password := hp } else r).username = r.username := by
  split <;> rfl

theorem findUser_setHash (db : DB) (u v hp : String) :
    findUser (setHash db u hp) v
      = (findUser db v).map
          (fun r => if r.username == u then { r with hashed_password := hp } else r) := by
  induction db with
  | nil => rfl
  | cons r t ih =>
    simp only [setHash, List.map_cons, findUser, List.find?] at *
    rw [setHash_username r u hp]
    cases hc : (r.username == v) with
    | true => simp
    | false => simpa [setHash] using ih

theorem profileObj_setHash (r : UserRow) (hp : String) :
    profileObj { r with hashed_password := hp } = profileObj r := rfl

-- For a well-formed string body, the authenticate route reduces to the user
-- lookup followed by password verification.
theorem simple_authenticate_strbody (u p : String) (db : DB) :
    simple_authenticate (some [("username", .str u), ("password", .str p)]) db
      = match findUser db u with
        | some r =>
          if bcrypt_checkpw p r.hashed_password then authSuccess u r else respAuthInvalid
        | none => respAuthInvalid := by
  simp [simple_authenticate, hasKey, lookupField, jget, List.find?]

theorem regValidate_userpass (u p : Scalar) :
    regValidate [("username", u), ("password", p)] = .ok ⟨none, none, none, none⟩ := rfl

/-- C2 (amended): in the bcrypt-backed service of app.py, the stored credential
of a newly registered user is exactly the output of the password hasher, and
the responses of GetProfile and Authenticate depend on the stored hash only
through the verification bit (so the hash value itself is never returned);
the hardcoded demo variant of 密码.py, however, persists plaintext passwords
(see the counterexample). -/
theorem C2_no_plaintext_amended :
    (∀ (db : DB) (salt : Nat) (u p : String), findUser db u = none →
      register (some [("username", .str u), ("password", .str p)]) db salt
        = (respRegOk, db ++ [⟨nextId db, u, bcrypt_hashpw p salt, none, none, none, none⟩]))
    ∧ (∀ (db : DB) (u v hp : String),
        get_user_profile v (setHash db u hp) = get_user_profile v db)
    ∧ (∀ (db : DB) (u p hp : String) (r : UserRow), findUser db u = some r →
        bcrypt_checkpw p hp = bcrypt_checkpw p r.hashed_password →
        simple_authenticate (some [("username", .str u), ("password", .str p)]) (setHash db u hp)
          = simple_authenticate (some [("username", .str u), ("password", .str p)]) db) := by
  refine ⟨?_, ?_, ?_⟩
  · intro db salt u p hnone
    simp [register, registerRace, hasKey, lookupField, jget, List.find?, hnone,
      regValidate_userpass]
  · intro db u v hp
    rw [get_user_profile, get_user_profile, findUser_setHash]
    cases h : findUser db v with
    | none => rfl
    | some r =>
      simp only [Option.map_some']
      split
      · rfl
      · rfl
  · intro db u p hp r hfind hbit
    have hru : (r.username == u) = true := by
      have := List.find?_some hfind
      simpa using this
    rw [simple_authenticate_strbody, simple_authenticate_strbody, findUser_setHash, hfind]
    simp only [Option.map_some', hru, if_true]
    simp only [hbit]
    cases hc : bcrypt_checkpw p r.hashed_password <;> simp [hc, authSuccess, profileObj]

theorem C2_no_plaintext_amended_witness :
    (findUser [] "alice" = none ∧
     register (some [("username", .str "alice"), ("password", .str "pw")]) [] 0
       = (respRegOk, [] ++ [⟨nextId [], "alice", bcrypt_hashpw "pw" 0, none, none, none, none⟩]))
    ∧ get_user_profile "alice" (setHash [aliceRow] "alice" "other-hash")
        = get_user_profile "alice" [aliceRow]
    ∧ (findUser [aliceRow] "alice" = some aliceRow ∧
       bcrypt_checkpw "pw" (bcrypt_hashpw "pw" 5) = bcrypt_checkpw "pw" aliceRow.hashed_password ∧
       simple_authenticate (some [("username", .str "alice"), ("password", .str "pw")])
           (setHash [aliceRow] "alice" (bcrypt_hashpw "pw" 5))
         = simple_authenticate (some [("username", .str "alice"), ("password", .str "pw")])
             [aliceRow]) := by
  refine ⟨⟨by decide, C2_no_plaintext_amended.1 [] 0 "alice" "pw" (by decide)⟩,
          C2_no_plaintext_amended.2.1 [aliceRow] "alice" "alice" "other-hash",
          ⟨by decide, by decide,
           C2_no_plaintext_amended.2.2 [aliceRow] "alice" "pw" (bcrypt_hashpw "pw" 5) aliceRow
             (by decide) (by decide)⟩⟩

/-- C2 counterexample: the demo variant 密码.py persists the plaintext password
of the user testuser in its credential store SIMPLE_USERS — the stored value
is the very string that authenticates, and it is not an output of the password
hasher (every hash output starts with a dollar sign). -/
theorem C2_plaintext_counterexample :
    lookupSimple "testuser" = some "testpass123"
    ∧ mima_simple_authenticate
        (some [("username", .str "testuser"), ("password", .str "testpass123")])
        = mimaAuthSuccess "testuser"
    ∧ ¬ ∃ (p : String) (salt : Nat), bcrypt_hashpw p salt = "testpass123" := by
  refine ⟨by decide, by decide, ?_⟩
  rintro ⟨p, salt, h⟩
  have hd : (bcrypt_hashpw p salt).data.head? = "testpass123".data.head? :=
    congrArg (fun s => s.data.head?) h
  rw [bcrypt_hashpw_head] at hd
  have ht : "testpass123".data.head? = some 't' := rfl
  rw [ht] at hd
  exact absurd (Option.some.inj hd) (by decide)

-- ---------------------------------------------------------------------------
-- Register claims
-- ---------------------------------------------------------------------------

/-- C3 (amended): a Register request whose body is missing, empty, or lacks
the username or password key is rejected with the 400 missing-field response
and creates no user.  (The presence check is on keys only: present-but-empty
string values are accepted, see the counterexample.) -/
theorem C3_register_missing_fields :
    (∀ (db : DB) (salt : Nat), register none db salt = (respRegMissing, db))
    ∧ (∀ (db : DB) (salt : Nat), register (some []) db salt = (respRegMissing, db))
    ∧ (∀ (body : Obj) (db : DB) (salt : Nat),
        lookupField body "username" = none ∨ lookupField body "password" = none →
        register (some body) db salt = (respRegMissing, db)) := by
  refine ⟨fun db salt => rfl, fun db salt => rfl, ?_⟩
  intro body db salt hmiss
  by_cases hb : body.isEmpty
  · simp [register, registerRace, hb]
  · have hcond : ¬ hasKey body "username" = true ∨ ¬ hasKey body "password" = true := by
      cases hmiss with
      | inl h => exact .inl (by simp [hasKey, h])
      | inr h => exact .inr (by simp [hasKey, h])
    simp only [register, registerRace]
    rw [if_neg hb, if_pos hcond]

theorem C3_register_missing_fields_witness :
    (register none [] 0 = (respRegMissing, []))
    ∧ (register (some []) [] 0 = (respRegMissing, []))
    ∧ (lookupField [("username", Scalar.str "x")] "username" = none ∨
       lookupField [("username", Scalar.str "x")] "password" = none)
    ∧ register (some [("username", Scalar.str "x")]) [] 0 = (respRegMissing, []) :=
  ⟨C3_register_missing_fields.1 [] 0, C3_register_missing_fields.2.1 [] 0,
   .inr (by decide),
   C3_register_missing_fields.2.2 [("username", Scalar.str "x")] [] 0 (.inr (by decide))⟩

/-- C3 counterexample: a Register request whose username is present but the
empty string is not rejected — it returns the 201 success response and a user
row with the empty username is created, so the missing-OR-EMPTY claim fails
on the empty-value half. -/
theorem C3_empty_value_counterexample :
    register (some [("username", Scalar.str ""), ("password", Scalar.str "pw")]) [] 0
      = (respRegOk, [⟨1, "", bcrypt_hashpw "pw" 0, none, none, none, none⟩])
    ∧ respRegOk.code = 201 ∧ respRegOk ≠ respRegMissing := by
  refine ⟨by decide, rfl, by decide⟩

/-- C6 (amended): in Register the username-existence check (app.py line 143)
runs before optional-field validation (lines 156-163): every Register request
with a taken username is answered with the DuplicateUsername response, even
when its optional fields would fail type validation. -/
theorem C6_existence_check_precedes_validation (db : DB) (salt : Nat) (body : Obj) (u : String)
    (hu : lookupField body "username" = some (.str u))
    (hp : hasKey body "password" = true)
    (hex : (findUser db u).isSome) :
    register (some body) db salt = (respDup, db) := by
  have hb : body.isEmpty = false := by
    cases body with
    | nil => simp [lookupField] at hu
    | cons a t => rfl
  have hk : hasKey body "username" = true := by simp [hasKey, hu]
  have hj : jget body "username" = .str u := by simp [jget, hu]
  simp [register, registerRace, hb, hk, hp, hj, hex]

theorem C6_existence_check_precedes_validation_witness :
    lookupField [("username", Scalar.str "alice"), ("password", Scalar.str "pw"),
        ("age", Scalar.str "not-a-number")] "username" = some (.str "alice")
    ∧ hasKey [("username", Scalar.str "alice"), ("password", Scalar.str "pw"),
        ("age", Scalar.str "not-a-number")] "password" = true
    ∧ (findUser [aliceRow] "alice").isSome = true
    ∧ register (some [("username", Scalar.str "alice"), ("password", Scalar.str "pw"),
        ("age", Scalar.str "not-a-number")]) [aliceRow] 0 = (respDup, [aliceRow]) :=
  ⟨by decide, by decide, by decide,
   C6_existence_check_precedes_validation [aliceRow] 0
     [("username", Scalar.str "alice"), ("password", Scalar.str "pw"),
      ("age", Scalar.str "not-a-number")] "alice" (by decide) (by decide) (by decide)⟩

/-- C6 counterexample: a Register request with a taken username AND an
optional field that fails type validation returns the 409 DuplicateUsername
response, not the claimed 400 InvalidFieldType response. -/
theorem C6_counterexample :
    register (some [("username", Scalar.str "alice"), ("password", Scalar.str "pw"),
        ("age", Scalar.str "not-a-number")]) [aliceRow] 0 = (respDup, [aliceRow])
    ∧ respDup.code = 409 ∧ respDup.code ≠ 400 := by
  refine ⟨by decide, rfl, by decide⟩

/-- C7: a Register request for an already-used username is answered with the
same DuplicateUsername response and leaves the table without a new row,
whether the duplicate is caught by the pre-insert existence check (against the
check-time snapshot) or by the storage uniqueness violation raised by the
INSERT itself (against the insert-time snapshot, reachable when a concurrent
Register committed between check and insert). -/
theorem C7_duplicate_same_error :
    (∀ (dbC dbI : DB) (body : Obj) (salt : Nat) (u : String),
      lookupField body "username" = some (.str u) →
      hasKey body "password" = true →
      (findUser dbC u).isSome →
      registerRace (some body) dbC dbI salt = (respDup, dbI))
    ∧ (∀ (dbC dbI : DB) (body : Obj) (salt : Nat) (u p : String) (f : RegFields),
        lookupField body "username" = some (.str u) →
        lookupField body "password" = some (.str p) →
        findUser dbC u = none →
        regValidate body = .ok f →
        (findUser dbI u).isSome →
        registerRace (some body) dbC dbI salt = (respDup, dbI)) := by
  constructor
  · intro dbC dbI body salt u hu hp hex
    have hb : body.isEmpty = false := by
      cases body with
      | nil => simp [lookupField] at hu
      | cons a t => rfl
    have hk : hasKey body "username" = true := by simp [hasKey, hu]
    have hj : jget body "username" = .str u := by simp [jget, hu]
    simp [registerRace, hb, hk, hp, hj, hex]
  · intro dbC dbI body salt u p f hu hp hchk hval hins
    have hb : body.isEmpty = false := by
      cases body with
      | nil => simp [lookupField] at hu
      | cons a t => rfl
    have hk : hasKey body "username" = true := by simp [hasKey, hu]
    have hkp : hasKey body "password" = true := by simp [hasKey, hp]
    have hj : jget body "username" = .str u := by simp [jget, hu]
    have hjp : jget body "password" = .str p := by simp [jget, hp]
    simp [registerRace, hb, hk, hkp, hj, hjp, hchk, hval, hins]

theorem C7_duplicate_same_error_witness :
    (lookupField [("username", Scalar.str "alice"), ("password", Scalar.str "pw")] "username"
        = some (.str "alice")
     ∧ hasKey [("username", Scalar.str "alice"), ("password", Scalar.str "pw")] "password" = true
     ∧ (findUser [aliceRow] "alice").isSome = true
     ∧ registerRace (some [("username", Scalar.str "alice"), ("password", Scalar.str "pw")])
         [aliceRow] [aliceRow] 0 = (respDup, [aliceRow]))
    ∧ (findUser [] "alice" = none
       ∧ regValidate [("username", Scalar.str "alice"), ("password", Scalar.str "pw")]
           = .ok ⟨none, none, none, none⟩
       ∧ registerRace (some [("username", Scalar.str "alice"), ("password", Scalar.str "pw")])
           [] [aliceRow] 0 = (respDup, [aliceRow])) :=
  ⟨⟨by decide, by decide, by decide,
    C7_duplicate_same_error.1 [aliceRow] [aliceRow]
      [("username", Scalar.str "alice"), ("password", Scalar.str "pw")] 0 "alice"
      (by decide) (by decide) (by decide)⟩,
   ⟨by decide, by decide,
    C7_duplicate_same_error.2 [] [aliceRow]
      [("username", Scalar.str "alice"), ("password", Scalar.str "pw")] 0 "alice" "pw"
      ⟨none, none, none, none⟩ (by decide) (by decide) (by decide) (by decide) (by decide)⟩⟩

-- ---------------------------------------------------------------------------
-- Lemmas about the field validation loop and the dynamic UPDATE
-- ---------------------------------------------------------------------------

theorem lookupField_none_of_no_key (body : Obj) (k : String)
    (h : ∀ kv ∈ body, kv.1 ≠ k) : lookupField body k = none := by
  unfold lookupField
  rw [List.find?_eq_none.mpr]
  · rfl
  · intro kv hkv
    simpa using h kv hkv

theorem lookupField_ne_nil (body : Obj) (k : String) (v : Scalar)
    (h : lookupField body k = some v) : body ≠ [] := by
  intro hb
  subst hb
  simp [lookupField] at h

theorem validateLoop_all_absent (body : Obj) (flds : List String)
    (acc : List (String × SqlVal)) (h : ∀ f ∈ flds, lookupField body f = none) :
    validateLoop body flds acc = .ok acc := by
  induction flds with
  | nil => rfl
  | cons f rest ih =>
    have hf : hasKey body f = false := by
      simp [hasKey, h f (by simp)]
    rw [validateLoop, if_neg (by simp [hf])]
    exact ih (fun g hg => h g (by simp [hg]))

theorem except_map_ok {α β : Type} (g : α → β) (e : Except String α) (b : β)
    (h : Except.map g e = .ok b) : ∃ a, e = .ok a ∧ b = g a := by
  cases e with
  | ok a =>
    refine ⟨a, rfl, ?_⟩
    have : (Except.ok (g a) : Except String β) = .ok b := h
    simpa using this.symm
  | error msg => simp [Except.map] at h

theorem coerceField_name (f : String) (v : Scalar) (kv : String × SqlVal)
    (h : coerceField f v = .ok (some kv)) : kv.1 = f := by
  unfold coerceField at h
  split_ifs at h <;>
    first
    | (obtain ⟨a, -, hb⟩ := except_map_ok _ _ _ h
       rw [Option.some.injEq] at hb
       rw [hb])
    | (simp only [Except.ok.injEq, Option.some.injEq] at h
       exact (congrArg Prod.fst h).symm)
    | simp at h

theorem validateLoop_ok_mem (body : Obj) (flds : List String)
    (acc fs : List (String × SqlVal)) (h : validateLoop body flds acc = .ok fs) :
    ∀ kv ∈ fs, kv ∈ acc ∨ (kv.1 ∈ flds ∧ hasKey body kv.1 = true) := by
  induction flds generalizing acc with
  | nil =>
    simp only [validateLoop, Except.ok.injEq] at h
    subst h
    exact fun kv hkv => .inl hkv
  | cons g rest ih =>
    intro kv hkv
    rw [validateLoop] at h
    by_cases hkg : hasKey body g
    · rw [if_pos hkg] at h
      cases hcf : coerceField g (jget body g) with
      | error e => rw [hcf] at h; simp at h
      | ok o =>
        rw [hcf] at h
        cases o with
        | none =>
          rcases ih acc h kv hkv with hacc | ⟨hm, hs⟩
          · exact .inl hacc
          · exact .inr ⟨List.mem_cons_of_mem g hm, hs⟩
        | some kv0 =>
          rcases ih (acc ++ [kv0]) h kv hkv with hacc | ⟨hm, hs⟩
          · rcases List.mem_append.mp hacc with h1 | h2
            · exact .inl h1
            · have hkk : kv = kv0 := by simpa using h2
              subst hkk
              have hn := coerceField_name g (jget body g) kv hcf
              refine .inr ⟨?_, ?_⟩
              · rw [hn]; exact List.mem_cons_self g rest
              · rw [hn]; exact hkg
          · exact .inr ⟨List.mem_cons_of_mem g hm, hs⟩
    · rw [if_neg hkg] at h
      rcases ih acc h kv hkv with hacc | ⟨hm, hs⟩
      · exact .inl hacc
      · exact .inr ⟨List.mem_cons_of_mem g hm, hs⟩

theorem validateLoop_ok_no_error (body : Obj) (flds : List String)
    (acc fs : List (String × SqlVal)) (h : validateLoop body flds acc = .ok fs)
    (k : String) (hk : k ∈ flds) (hhk : hasKey body k = true)
    (e : String) : coerceField k (jget body k) ≠ .error e := by
  induction flds generalizing acc with
  | nil => cases hk
  | cons g rest ih =>
    rw [validateLoop] at h
    rcases List.mem_cons.mp hk with hkg | hkr
    · subst hkg
      rw [if_pos hhk] at h
      intro hce
      rw [hce] at h
      simp at h
    · by_cases hg : hasKey body g
      · rw [if_pos hg] at h
        cases hcf : coerceField g (jget body g) with
        | error e2 => rw [hcf] at h; simp at h
        | ok o =>
          rw [hcf] at h
          cases o with
          | none => exact ih acc h hkr
          | some kv0 => exact ih (acc ++ [kv0]) h hkr
      · rw [if_neg hg] at h
        exact ih acc h hkr

theorem validateLoop_error_mem (body : Obj) (flds : List String)
    (acc : List (String × SqlVal)) (f : String)
    (h : validateLoop body flds acc = .error f) :
    f ∈ flds ∧ hasKey body f = true ∧ ∃ e, coerceField f (jget body f) = .error e := by
  induction flds generalizing acc with
  | nil => simp [validateLoop] at h
  | cons g rest ih =>
    rw [validateLoop] at h
    by_cases hg : hasKey body g
    · rw [if_pos hg] at h
      cases hcf : coerceField g (jget body g) with
      | error e =>
        rw [hcf] at h
        have hgf : g = f := by simpa using h
        subst hgf
        exact ⟨List.mem_cons_self g rest, hg, e, hcf⟩
      | ok o =>
        rw [hcf] at h
        cases o with
        | none =>
          obtain ⟨hm, hr⟩ := ih acc h
          exact ⟨List.mem_cons_of_mem g hm, hr⟩
        | some kv0 =>
          obtain ⟨hm, hr⟩ := ih (acc ++ [kv0]) h
          exact ⟨List.mem_cons_of_mem g hm, hr⟩
    · rw [if_neg hg] at h
      obtain ⟨hm, hr⟩ := ih acc h
      exact ⟨List.mem_cons_of_mem g hm, hr⟩

theorem applyUpd_keeps_identity (r : UserRow) (kv : String × SqlVal) :
    (applyUpd r kv).id = r.id ∧ (applyUpd r kv).username = r.username ∧
      (applyUpd r kv).hashed_password = r.hashed_password := by
  unfold applyUpd
  split <;> exact ⟨rfl, rfl, rfl⟩

theorem applyFields_keeps_identity (fs : List (String × SqlVal)) (r : UserRow) :
    (applyFields r fs).id = r.id ∧ (applyFields r fs).username = r.username ∧
      (applyFields r fs).hashed_password = r.hashed_password := by
  induction fs generalizing r with
  | nil => exact ⟨rfl, rfl, rfl⟩
  | cons kv rest ih =>
    have h1 := applyUpd_keeps_identity r kv
    have h2 := ih (applyUpd r kv)
    exact ⟨h2.1.trans h1.1, h2.2.1.trans h1.2.1, h2.2.2.trans h1.2.2⟩

theorem applyUpd_height_ne (r : UserRow) (kv : String × SqlVal) (h : kv.1 ≠ "height") :
    (applyUpd r kv).height = r.height := by
  unfold applyUpd
  split <;> simp_all

theorem applyUpd_weight_ne (r : UserRow) (kv : String × SqlVal) (h : kv.1 ≠ "weight") :
    (applyUpd r kv).weight = r.weight := by
  unfold applyUpd
  split <;> simp_all

theorem applyUpd_age_ne (r : UserRow) (kv : String × SqlVal) (h : kv.1 ≠ "age") :
    (applyUpd r kv).age = r.age := by
  unfold applyUpd
  split <;> simp_all

theorem applyUpd_gender_ne (r : UserRow) (kv : String × SqlVal) (h : kv.1 ≠ "gender") :
    (applyUpd r kv).gender = r.gender := by
  unfold applyUpd
  split <;> simp_all

theorem applyFields_height_ne (fs : List (String × SqlVal)) (r : UserRow)
    (h : "height" ∉ fs.map Prod.fst) : (applyFields r fs).height = r.height := by
  induction fs generalizing r with
  | nil => rfl
  | cons kv rest ih =>
    simp only [List.map_cons, List.mem_cons, not_or] at h
    exact (ih (applyUpd r kv) h.2).trans (applyUpd_height_ne r kv (fun hh => h.1 hh.symm))

theorem applyFields_weight_ne (fs : List (String × SqlVal)) (r : UserRow)
    (h : "weight" ∉ fs.map Prod.fst) : (applyFields r fs).weight = r.weight := by
  induction fs generalizing r with
  | nil => rfl
  | cons kv rest ih =>
    simp only [List.map_cons, List.mem_cons, not_or] at h
    exact (ih (applyUpd r kv) h.2).trans (applyUpd_weight_ne r kv (fun hh => h.1 hh.symm))

theorem applyFields_age_ne (fs : List (String × SqlVal)) (r : UserRow)
    (h : "age" ∉ fs.map Prod.fst) : (applyFields r fs).age = r.age := by
  induction fs generalizing r with
  | nil => rfl
  | cons kv rest ih =>
    simp only [List.map_cons, List.mem_cons, not_or] at h
    exact (ih (applyUpd r kv) h.2).trans (applyUpd_age_ne r kv (fun hh => h.1 hh.symm))

theorem applyFields_gender_ne (fs : List (String × SqlVal)) (r : UserRow)
    (h : "gender" ∉ fs.map Prod.fst) : (applyFields r fs).gender = r.gender := by
  induction fs generalizing r with
  | nil => rfl
  | cons kv rest ih =>
    simp only [List.map_cons, List.mem_cons, not_or] at h
    exact (ih (applyUpd r kv) h.2).trans (applyUpd_gender_ne r kv (fun hh => h.1 hh.symm))

-- ---------------------------------------------------------------------------
-- UpdateProfile claims
-- ---------------------------------------------------------------------------

/-- C1 (amended): an UpdateProfile request whose nonempty map contains only
unrecognized keys is a successful no-op — status 200 with the no-changes
message and every stored field unchanged; the empty object, however, is
rejected as a missing body (400, also leaving the row unchanged), because the
empty dict is falsy in Python. -/
theorem C1_update_unrecognized_noop :
    (∀ (db : DB) (u : String) (body : Obj), body ≠ [] →
      (findUser db u).isSome = true →
      (∀ kv ∈ body, kv.1 ∉ valid_fields) →
      update_user_profile u (some body) db = (respUpdNoFields, db))
    ∧ (∀ (db : DB) (u : String),
        update_user_profile u (some []) db = (respUpdMissing, db)) := by
  constructor
  · intro db u body hne hex hunrec
    have hval : validateFields body = .ok [] := by
      apply validateLoop_all_absent
      intro f hf
      apply lookupField_none_of_no_key
      intro kv hkv heq
      exact hunrec kv hkv (by rw [heq]; exact hf)
    have hb : body.isEmpty = false := by
      cases body with
      | nil => exact absurd rfl hne
      | cons a t => rfl
    have hfu : (findUser db u).isNone = false := by
      cases hfind : findUser db u with
      | none => rw [hfind] at hex; cases hex
      | some r => rfl
    simp [update_user_profile, hb, hfu, hval]
  · intro db u
    rfl

theorem C1_update_unrecognized_noop_witness :
    (([("foo", Scalar.str "bar")] : Obj) ≠ []
     ∧ (findUser [aliceRow] "alice").isSome = true
     ∧ (∀ kv ∈ ([("foo", Scalar.str "bar")] : Obj), kv.1 ∉ valid_fields)
     ∧ update_user_profile "alice" (some [("foo", Scalar.str "bar")]) [aliceRow]
         = (respUpdNoFields, [aliceRow]))
    ∧ update_user_profile "alice" (some []) [aliceRow] = (respUpdMissing, [aliceRow]) :=
  ⟨⟨by decide, by decide, by decide,
    C1_update_unrecognized_noop.1 [aliceRow] "alice" [("foo", Scalar.str "bar")]
      (by decide) (by decide) (by decide)⟩,
   C1_update_unrecognized_noop.2 [aliceRow] "alice"⟩

/-- C1 counterexample: UpdateProfile with the empty object returns the 400
missing-data error response, not a success response, refuting the claim that
the empty map is a successful no-op. -/
theorem C1_empty_map_counterexample :
    update_user_profile "alice" (some []) [aliceRow] = (respUpdMissing, [aliceRow])
    ∧ respUpdMissing.code = 400 ∧ respUpdMissing.code ≠ 200 := by
  refine ⟨by decide, rfl, by decide⟩

/-- C4: an UpdateProfile request containing a whitelisted key whose value
fails its type coercion is answered with the 400 InvalidFieldType response
whose message names a failing whitelisted field, and the database — hence the
stored row, including every other field supplied in the same request — is
completely unchanged. -/
theorem C4_invalid_type_aborts (u : String) (body : Obj) (db : DB) (k : String)
    (e : String) (hmem : k ∈ valid_fields) (hhk : hasKey body k = true)
    (hco : coerceField k (jget body k) = .error e)
    (hex : (findUser db u).isSome = true) :
    ∃ f e2, f ∈ valid_fields ∧ hasKey body f = true ∧
      coerceField f (jget body f) = .error e2 ∧
      update_user_profile u (some body) db = (respUpdBadType f, db) := by
  have hne : body ≠ [] := by
    intro hb
    subst hb
    simp [hasKey, lookupField] at hhk
  have hb : body.isEmpty = false := by
    cases body with
    | nil => exact absurd rfl hne
    | cons a t => rfl
  have hfu : (findUser db u).isNone = false := by
    cases hfind : findUser db u with
    | none => rw [hfind] at hex; cases hex
    | some r => rfl
  cases hval : validateFields body with
  | ok fs =>
    exact absurd hco (validateLoop_ok_no_error body valid_fields [] fs hval k hmem hhk e)
  | error f =>
    obtain ⟨hfm, hfk, e2, hc2⟩ := validateLoop_error_mem body valid_fields [] f hval
    refine ⟨f, e2, hfm, hfk, hc2, ?_⟩
    simp [update_user_profile, hb, hfu, hval]

theorem C4_invalid_type_aborts_witness :
    "age" ∈ valid_fields
    ∧ hasKey [("height", Scalar.int 10), ("age", Scalar.str "not-a-number")] "age" = true
    ∧ coerceField "age"
        (jget [("height", Scalar.int 10), ("age", Scalar.str "not-a-number")] "age")
        = .error "invalid literal for int() with base 10: not-a-number"
    ∧ (findUser [aliceRow] "alice").isSome = true
    ∧ (∃ f e2, f ∈ valid_fields
        ∧ hasKey [("height", Scalar.int 10), ("age", Scalar.str "not-a-number")] f = true
        ∧ coerceField f (jget [("height", Scalar.int 10), ("age", Scalar.str "not-a-number")] f)
            = .error e2
        ∧ update_user_profile "alice"
            (some [("height", Scalar.int 10), ("age", Scalar.str "not-a-number")]) [aliceRow]
            = (respUpdBadType f, [aliceRow])) :=
  ⟨by decide, by decide, by decide, by decide,
   C4_invalid_type_aborts "alice" [("height", Scalar.int 10), ("age", Scalar.str "not-a-number")]
     [aliceRow] "age" "invalid literal for int() with base 10: not-a-number"
     (by decide) (by decide) (by decide) (by decide)⟩

/-- C8: a successful UpdateProfile modifies only whitelisted fields that are
present in the request map: the result database replaces the rows of the
target username by the validated update set applied to them; applying the set
never changes id, username or hashed_password; every entry of the set is a
whitelisted key present in the request; and any whitelisted column without an
entry in the set keeps its prior value. -/
theorem C8_update_frame (u : String) (body : Obj) (db : DB)
    (fs : List (String × SqlVal)) (hne : body ≠ [])
    (hex : (findUser db u).isSome = true)
    (hval : validateFields body = .ok fs) :
    (update_user_profile u (some body) db).1.code = 200
    ∧ (update_user_profile u (some body) db).2
        = db.map (fun r => if r.username == u then applyFields r fs else r)
    ∧ (∀ r : UserRow, (applyFields r fs).id = r.id
        ∧ (applyFields r fs).username = r.username
        ∧ (applyFields r fs).hashed_password = r.hashed_password)
    ∧ (∀ kv ∈ fs, kv.1 ∈ valid_fields ∧ hasKey body kv.1 = true)
    ∧ (∀ r : UserRow,
        ("height" ∉ fs.map Prod.fst → (applyFields r fs).height = r.height)
        ∧ ("weight" ∉ fs.map Prod.fst → (applyFields r fs).weight = r.weight)
        ∧ ("age" ∉ fs.map Prod.fst → (applyFields r fs).age = r.age)
        ∧ ("gender" ∉ fs.map Prod.fst → (applyFields r fs).gender = r.gender)) := by
  have hb : body.isEmpty = false := by
    cases body with
    | nil => exact absurd rfl hne
    | cons a t => rfl
  have hfu : (findUser db u).isNone = false := by
    cases hfind : findUser db u with
    | none => rw [hfind] at hex; cases hex
    | some r => rfl
  refine ⟨?_, ?_, fun r => applyFields_keeps_identity fs r, ?_, fun r =>
    ⟨applyFields_height_ne fs r, applyFields_weight_ne fs r,
     applyFields_age_ne fs r, applyFields_gender_ne fs r⟩⟩
  · by_cases hfs : fs.isEmpty
    · simp [update_user_profile, hb, hfu, hval, hfs, respUpdNoFields]
    · simp [update_user_profile, hb, hfu, hval, hfs, respUpdOk]
  · by_cases hfs : fs.isEmpty
    · have hfsn : fs = [] := by
        cases fs with
        | nil => rfl
        | cons a t => cases hfs
      subst hfsn
      simp [update_user_profile, hb, hfu, hval, applyFields]
    · simp [update_user_profile, hb, hfu, hval, hfs]
  · intro kv hkv
    rcases validateLoop_ok_mem body valid_fields [] fs hval kv hkv with h0 | h1
    · cases h0
    · exact h1

theorem C8_update_frame_witness :
    (([("age", Scalar.int 30)] : Obj) ≠ []
     ∧ (findUser [aliceRow] "alice").isSome = true
     ∧ validateFields [("age", Scalar.int 30)] = .ok [("age", SqlVal.int 30)])
    ∧ ((update_user_profile "alice" (some [("age", Scalar.int 30)]) [aliceRow]).1.code = 200
       ∧ (update_user_profile "alice" (some [("age", Scalar.int 30)]) [aliceRow]).2
           = [aliceRow].map (fun r => if r.username == "alice"
               then applyFields r [("age", SqlVal.int 30)] else r)
       ∧ (∀ r : UserRow, (applyFields r [("age", SqlVal.int 30)]).id = r.id
           ∧ (applyFields r [("age", SqlVal.int 30)]).username = r.username
           ∧ (applyFields r [("age", SqlVal.int 30)]).hashed_password = r.hashed_password)
       ∧ (∀ kv ∈ ([("age", SqlVal.int 30)] : List (String × SqlVal)),
           kv.1 ∈ valid_fields ∧ hasKey [("age", Scalar.int 30)] kv.1 = true)
       ∧ (∀ r : UserRow,
           ("height" ∉ ([("age", SqlVal.int 30)] : List (String × SqlVal)).map Prod.fst →
             (applyFields r [("age", SqlVal.int 30)]).height = r.height)
           ∧ ("weight" ∉ ([("age", SqlVal.int 30)] : List (String × SqlVal)).map Prod.fst →
             (applyFields r [("age", SqlVal.int 30)]).weight = r.weight)
           ∧ ("age" ∉ ([("age", SqlVal.int 30)] : List (String × SqlVal)).map Prod.fst →
             (applyFields r [("age", SqlVal.int 30)]).age = r.age)
           ∧ ("gender" ∉ ([("age", SqlVal.int 30)] : List (String × SqlVal)).map Prod.fst →
             (applyFields r [("age", SqlVal.int 30)]).gender = r.gender))) :=
  ⟨⟨by decide, by decide, by decide⟩,
   C8_update_frame "alice" [("age", Scalar.int 30)] [aliceRow]
     [("age", SqlVal.int 30)] (by decide) (by decide) (by decide)⟩

/-- C10: the gender branch of the UpdateProfile validator can never fail —
any non-null scalar value is accepted and stored as its string form, and an
explicit null is stored as NULL; consequently an update supplying only gender
always succeeds, storing str(value), and gender can never be the field named
by an InvalidFieldType error. -/
theorem C10_gender_always_validates :
    (∀ v : Scalar, coerceField "gender" v
        = .ok (some ("gender", if v = .null then SqlVal.null else SqlVal.text (pyStr v))))
    ∧ (∀ (db : DB) (u : String) (v : Scalar), (findUser db u).isSome = true →
        update_user_profile u (some [("gender", v)]) db
          = (respUpdOk, db.map (fun r => if r.username == u then
              { r with gender := if v = .null then none else some (pyStr v) } else r))) := by
  have hco : ∀ v : Scalar, coerceField "gender" v
      = .ok (some ("gender", if v = .null then SqlVal.null else SqlVal.text (pyStr v))) := by
    intro v
    unfold coerceField
    rw [if_neg (by simp), if_neg (by simp), if_neg (by simp), if_pos rfl]
  refine ⟨hco, ?_⟩
  intro db u v hex
  have hfu : (findUser db u).isNone = false := by
    cases hfind : findUser db u with
    | none => rw [hfind] at hex; cases hex
    | some r => rfl
  have h1 : hasKey [("gender", v)] "height" = false := rfl
  have h2 : hasKey [("gender", v)] "weight" = false := rfl
  have h3 : hasKey [("gender", v)] "age" = false := rfl
  have h4 : hasKey [("gender", v)] "gender" = true := rfl
  have hval : validateFields [("gender", v)]
      = .ok [("gender", if v = .null then SqlVal.null else SqlVal.text (pyStr v))] := by
    show validateLoop [("gender", v)] valid_fields [] = _
    rw [valid_fields]
    simp only [validateLoop, h1, h2, h3, h4, Bool.false_eq_true, if_false, if_true,
      show jget [("gender", v)] "gender" = v from rfl, hco v]
    rfl
  have hgv : sqlToText (if v = .null then SqlVal.null else SqlVal.text (pyStr v))
      = (if v = .null then none else some (pyStr v)) := by
    by_cases hv : v = .null <;> simp [hv, sqlToText]
  simp [update_user_profile, hfu, hval, applyFields, applyUpd, hgv]

theorem C10_gender_always_validates_witness :
    coerceField "gender" (Scalar.int 123)
      = .ok (some ("gender",
          if Scalar.int 123 = .null then SqlVal.null else SqlVal.text (pyStr (Scalar.int 123))))
    ∧ (findUser [aliceRow] "alice").isSome = true
    ∧ update_user_profile "alice" (some [("gender", Scalar.int 123)]) [aliceRow]
        = (respUpdOk, [aliceRow].map (fun r => if r.username == "alice" then
            { r with gender := if Scalar.int 123 = .null then none
                               else some (pyStr (Scalar.int 123)) } else r))
    ∧ pyStr (Scalar.int 123) = "123" :=
  ⟨C10_gender_always_validates.1 (Scalar.int 123), by decide,
   C10_gender_always_validates.2 [aliceRow] "alice" (Scalar.int 123) (by decide), rfl⟩
